import Mathlib

/-
Shallow embedding of src/backend/app/schemas/m01_example_schema.py, a
Pydantic-v2 schema module with three validated shapes over an Example
entity: ExampleCreate (inherits ExampleBase), ExampleUpdate (all-optional,
extra fields forbidden) and ExampleRead (inherits ExampleBase, adds
required id / created_at / updated_at, can be built from an
attribute-bearing object via from_attributes).

Modelling conventions:
- Input values are a closed universe `Value` of the Python values the
  schemas deal with: str, bool, int, datetime (modelled as an integer
  timestamp) and None.  A mapping input is an association list
  `List (String × Value)` looked up by key, first occurrence wins, which
  matches a Python dict whose keys are unique.
- Pydantic validates every declared field in declaration order, collects
  one error entry per invalid field (loc, msg, input) and raises a single
  ValidationError carrying all of them; a model instance is produced only
  when no field fails.  The embedding mirrors this: each parse returns
  `Except (List FieldError) shape`.
- Lax (non-strict) coercions that the schemas can actually exercise are
  modelled: bool fields additionally accept the ints 0 / 1 and the usual
  boolean strings; int fields additionally accept decimal integer
  strings; datetime fields additionally accept an int timestamp.
  ISO-8601 datetime strings are not modelled; no claim exercises them.
- Pydantic model equality compares field values only; the set of
  explicitly provided fields (model_fields_set) is tracked separately and
  ignored by equality.  `ExampleUpdate` carries it as `fieldsSet` with a
  value-only equality `model_eq`, matching the source semantics.
-/

/-- The universe of Python values flowing into the schemas.  `none` is
Python None; `datetime` is a timestamp modelled as an integer. -/
inductive Value where
  | str (s : String)
  | bool (b : Bool)
  | int (n : Int)
  | datetime (t : Int)
  | none
deriving DecidableEq, Repr

/-- Short description of the type of an offending value, as carried in a
Pydantic error entry (the spec calls it the offending value summary). -/
def Value.typeSummary : Value → String
  | Value.str _ => "str"
  | Value.bool _ => "bool"
  | Value.int _ => "int"
  | Value.datetime _ => "datetime"
  | Value.none => "NoneType"

/-- One entry of a Pydantic ValidationError: field location, human
readable message, and a summary of the offending value. -/
structure FieldError where
  path : String
  msg : String
  valueSummary : String
deriving DecidableEq, Repr

/-- The summary used for a missing required field. -/
def missingSummary : String := "missing"

/-- Lax coercion of a `Value` to bool, as Pydantic applies to a `bool`
typed field: a bool itself, the ints 0 / 1, or a recognised boolean
string (case insensitive). -/
def coerceBool : Value → Option Bool
  | Value.bool b => some b
  | Value.int 0 => some false
  | Value.int 1 => some true
  | Value.str s =>
      if s.toLower ∈ ["true", "t", "yes", "y", "on", "1"] then some true
      else if s.toLower ∈ ["false", "f", "no", "n", "off", "0"] then some false
      else Option.none
  | _ => Option.none

/-- Lax coercion of a `Value` to int, as Pydantic applies to an `int`
typed field: an int itself or a decimal integer string.  Bools are
rejected for int fields in Pydantic v2. -/
def coerceInt : Value → Option Int
  | Value.int n => some n
  | Value.str s => s.toInt?
  | _ => Option.none

/-- Lax coercion of a `Value` to a datetime timestamp: a datetime itself
or a numeric timestamp.  ISO-8601 strings are not modelled. -/
def coerceDatetime : Value → Option Int
  | Value.datetime t => some t
  | Value.int n => some n
  | _ => Option.none

/-- Validation of the `name` field declared in ExampleBase:
`name: str = Field(..., min_length=1, max_length=100)`.  Required, must
be a string of length 1 to 100. -/
def validate_name (v : Option Value) : Except FieldError String :=
  match v with
  | Option.none => Except.error ⟨"name", "Field required", missingSummary⟩
  | some (Value.str s) =>
      if s.length < 1 then
        Except.error ⟨"name", "String should have at least 1 character", "str"⟩
      else if 100 < s.length then
        Except.error ⟨"name", "String should have at most 100 characters", "str"⟩
      else Except.ok s
  | some w => Except.error ⟨"name", "Input should be a valid string", w.typeSummary⟩

/-- Validation of the `description` field declared in ExampleBase:
`description: str | None = Field(default=None, max_length=500)`.
Absent or None gives None; a string must have length at most 500. -/
def validate_description (v : Option Value) : Except FieldError (Option String) :=
  match v with
  | Option.none => Except.ok Option.none
  | some Value.none => Except.ok Option.none
  | some (Value.str s) =>
      if 500 < s.length then
        Except.error ⟨"description", "String should have at most 500 characters", "str"⟩
      else Except.ok (some s)
  | some w =>
      Except.error ⟨"description", "Input should be a valid string", w.typeSummary⟩

/-- Validation of the `is_active` field declared in ExampleBase:
`is_active: bool = Field(default=True)`.  Absent defaults to true; a
present value must coerce to bool (an explicit None is rejected, the
field type is plain bool). -/
def validate_is_active (v : Option Value) : Except FieldError Bool :=
  match v with
  | Option.none => Except.ok true
  | some w =>
      match coerceBool w with
      | some b => Except.ok b
      | Option.none =>
          Except.error ⟨"is_active", "Input should be a valid boolean", w.typeSummary⟩

/-- The ExampleCreate shape: inherits the three ExampleBase fields and
adds nothing. -/
structure ExampleCreate where
  name : String
  description : Option String
  is_active : Bool
deriving DecidableEq, Repr

/-- The error entries contributed by one field check. -/
def collect {α : Type} : Except FieldError α → List FieldError
  | Except.ok _ => []
  | Except.error e => [e]

/-- Validation of an input mapping against ExampleCreate.  Pydantic
validates every declared field, aggregates one error entry per invalid
field, and builds the instance only when no field failed.  Keys outside
the declared fields are ignored (the default extra policy). -/
def parse_create (m : List (String × Value)) :
    Except (List FieldError) ExampleCreate :=
  let rn := validate_name (m.lookup "name")
  let rd := validate_description (m.lookup "description")
  let ra := validate_is_active (m.lookup "is_active")
  match rn, rd, ra with
  | Except.ok n, Except.ok d, Except.ok a => Except.ok ⟨n, d, a⟩
  | _, _, _ => Except.error (collect rn ++ collect rd ++ collect ra)

/-- Serialization of an optional string field: None dumps to Python
None, a string to itself. -/
def optStrToValue : Option String → Value
  | some s => Value.str s
  | Option.none => Value.none

/-- Serialization of an ExampleCreate value back to a mapping
(model_dump): each field under its name, None as Python None. -/
def ExampleCreate.model_dump (v : ExampleCreate) : List (String × Value) :=
  [("name", Value.str v.name),
   ("description", optStrToValue v.description),
   ("is_active", Value.bool v.is_active)]

/-- The ExampleUpdate shape: all three fields optional with default None
(partial patch).  `fieldsSet` models Pydantic model_fields_set, the names
of the fields that were explicitly provided; Pydantic model equality
ignores it. -/
structure ExampleUpdate where
  name : Option String
  description : Option String
  is_active : Option Bool
  fieldsSet : List String
deriving DecidableEq, Repr

/-- Pydantic model equality on ExampleUpdate: field values only,
model_fields_set is not compared. -/
def ExampleUpdate.model_eq (a b : ExampleUpdate) : Bool :=
  a.name = b.name ∧ a.description = b.description ∧ a.is_active = b.is_active

/-- The declared field names of ExampleUpdate. -/
def updateFields : List String := ["name", "description", "is_active"]

/-- Validation of ExampleUpdate.name:
`name: str | None = Field(default=None, min_length=1, max_length=100)`.
Absent or explicit None both give None (the length constraints apply
only to the str branch of the union); a string must have length 1 to
100. -/
def validate_update_name (v : Option Value) : Except FieldError (Option String) :=
  match v with
  | Option.none => Except.ok Option.none
  | some Value.none => Except.ok Option.none
  | some (Value.str s) =>
      if s.length < 1 then
        Except.error ⟨"name", "String should have at least 1 character", "str"⟩
      else if 100 < s.length then
        Except.error ⟨"name", "String should have at most 100 characters", "str"⟩
      else Except.ok (some s)
  | some w => Except.error ⟨"name", "Input should be a valid string", w.typeSummary⟩

/-- Validation of ExampleUpdate.is_active:
`is_active: bool | None = Field(default=None)`.  Absent or explicit None
both give None; anything else must coerce to bool. -/
def validate_update_is_active (v : Option Value) : Except FieldError (Option Bool) :=
  match v with
  | Option.none => Except.ok Option.none
  | some Value.none => Except.ok Option.none
  | some w =>
      match coerceBool w with
      | some b => Except.ok (some b)
      | Option.none =>
          Except.error ⟨"is_active", "Input should be a valid boolean", w.typeSummary⟩

/-- The error entries produced by the extra="forbid" model_config of
ExampleUpdate: one per input key outside the declared field set. -/
def update_extras (m : List (String × Value)) : List FieldError :=
  (m.filter (fun p => p.1 ∉ updateFields)).map
    (fun p => FieldError.mk p.1 "Extra inputs are not permitted" p.2.typeSummary)

/-- Validation of an input mapping against ExampleUpdate, whose
model_config sets extra="forbid": after the declared fields are
validated, every input key outside the declared set contributes an
"Extra inputs are not permitted" error entry.  The instance records the
explicitly provided declared fields as fieldsSet. -/
def parse_update (m : List (String × Value)) :
    Except (List FieldError) ExampleUpdate :=
  let rn := validate_update_name (m.lookup "name")
  let rd := validate_description (m.lookup "description")
  let ra := validate_update_is_active (m.lookup "is_active")
  let extras := update_extras m
  match extras, rn, rd, ra with
  | [], Except.ok n, Except.ok d, Except.ok a =>
      Except.ok ⟨n, d, a, (m.filter (fun p => p.1 ∈ updateFields)).map Prod.fst⟩
  | _, _, _, _ =>
      Except.error (collect rn ++ collect rd ++ collect ra ++ extras)

/-- The ExampleRead shape: the three ExampleBase fields (with their
constraints inherited) plus required server generated id, created_at and
updated_at. -/
structure ExampleRead where
  name : String
  description : Option String
  is_active : Bool
  id : Int
  created_at : Int
  updated_at : Int
deriving DecidableEq, Repr

/-- Validation of ExampleRead.id: `id: int = Field(...)`, required. -/
def validate_id (v : Option Value) : Except FieldError Int :=
  match v with
  | Option.none => Except.error ⟨"id", "Field required", missingSummary⟩
  | some w =>
      match coerceInt w with
      | some n => Except.ok n
      | Option.none =>
          Except.error ⟨"id", "Input should be a valid integer", w.typeSummary⟩

/-- Validation of a required datetime field of ExampleRead (created_at
and updated_at). -/
def validate_timestamp (path : String) (v : Option Value) :
    Except FieldError Int :=
  match v with
  | Option.none => Except.error ⟨path, "Field required", missingSummary⟩
  | some w =>
      match coerceDatetime w with
      | some t => Except.ok t
      | Option.none =>
          Except.error ⟨path, "Input should be a valid datetime", w.typeSummary⟩

/-- Validation of the six ExampleRead fields against a generic getter.
Pydantic reads each declared field by name, from a mapping by key or,
with from_attributes=True, from an arbitrary object by attribute; the
inherited ExampleBase fields come first in declaration order. -/
def parse_read_core (get : String → Option Value) :
    Except (List FieldError) ExampleRead :=
  let rn := validate_name (get "name")
  let rd := validate_description (get "description")
  let ra := validate_is_active (get "is_active")
  let ri := validate_id (get "id")
  let rc := validate_timestamp "created_at" (get "created_at")
  let ru := validate_timestamp "updated_at" (get "updated_at")
  match rn, rd, ra, ri, rc, ru with
  | Except.ok n, Except.ok d, Except.ok a, Except.ok i, Except.ok c, Except.ok u =>
      Except.ok ⟨n, d, a, i, c, u⟩
  | _, _, _, _, _, _ =>
      Except.error (collect rn ++ collect rd ++ collect ra ++
        collect ri ++ collect rc ++ collect ru)

/-- Validation of a mapping input against ExampleRead. -/
def parse_read (m : List (String × Value)) :
    Except (List FieldError) ExampleRead :=
  parse_read_core (fun k => m.lookup k)

/-- A record-like object exposing the six attributes ExampleRead needs,
standing for an arbitrary persistence-layer record (from_attributes). -/
structure AttrObj where
  id : Value
  name : Value
  description : Value
  is_active : Value
  created_at : Value
  updated_at : Value
deriving DecidableEq, Repr

/-- Attribute access by name on a record-like object. -/
def AttrObj.getattr (o : AttrObj) : String → Option Value
  | "id" => some o.id
  | "name" => some o.name
  | "description" => some o.description
  | "is_active" => some o.is_active
  | "created_at" => some o.created_at
  | "updated_at" => some o.updated_at
  | _ => Option.none

/-- Validation of a record-like object against ExampleRead, reading each
field by attribute name. -/
def parse_read_attrs (o : AttrObj) : Except (List FieldError) ExampleRead :=
  parse_read_core o.getattr

/-- The mapping carrying the same six fields as a record-like object. -/
def AttrObj.toMapping (o : AttrObj) : List (String × Value) :=
  [("name", o.name), ("description", o.description),
   ("is_active", o.is_active), ("id", o.id),
   ("created_at", o.created_at), ("updated_at", o.updated_at)]

/-- A string of n copies of the letter a, for the long-string test
inputs of the spec. -/
def strA (n : Nat) : String := String.mk (List.replicate n 'a')

/-- Whether a field check succeeded. -/
def isOk {α : Type} : Except FieldError α → Bool
  | Except.ok _ => true
  | Except.error _ => false

/-- The declared fields of ExampleCreate that are invalid in a given
input, in declaration order; used to state that a failed parse reports
exactly one error entry per invalid field. -/
def create_invalid_fields (m : List (String × Value)) : List String :=
  (if isOk (validate_name (m.lookup "name")) then [] else ["name"]) ++
  (if isOk (validate_description (m.lookup "description")) then [] else ["description"]) ++
  (if isOk (validate_is_active (m.lookup "is_active")) then [] else ["is_active"])

/-- The invalid fields of an ExampleUpdate input: invalid declared
fields in declaration order, then the forbidden unknown keys in input
order. -/
def update_invalid_fields (m : List (String × Value)) : List String :=
  (if isOk (validate_update_name (m.lookup "name")) then [] else ["name"]) ++
  (if isOk (validate_description (m.lookup "description")) then [] else ["description"]) ++
  (if isOk (validate_update_is_active (m.lookup "is_active")) then [] else ["is_active"]) ++
  (m.filter (fun p => p.1 ∉ updateFields)).map Prod.fst

/-- Every value type summary is a nonempty string. -/
lemma typeSummary_ne_empty (v : Value) : v.typeSummary ≠ "" := by
  cases v <;> simp [Value.typeSummary]

/-- An error produced by the name check points at the name field with a
nonempty message and value summary. -/
lemma validate_name_error_shape (x : Option Value) (e : FieldError)
    (h : validate_name x = Except.error e) :
    e.path = "name" ∧ e.msg ≠ "" ∧ e.valueSummary ≠ "" := by
  rcases x with _ | w
  · injection h with h
    subst h
    exact ⟨rfl, by decide, by decide⟩
  · rcases w with s | b | n | t | _
    case str =>
      simp only [validate_name] at h
      split at h
      · injection h with h
        subst h
        exact ⟨rfl, by decide, by decide⟩
      · split at h
        · injection h with h
          subst h
          exact ⟨rfl, by decide, by decide⟩
        · simp at h
    all_goals
      injection h with h
      subst h
      exact ⟨rfl, by simp, by simp [Value.typeSummary]⟩

/-- An error produced by the description check points at the description
field with a nonempty message and value summary. -/
lemma validate_description_error_shape (x : Option Value) (e : FieldError)
    (h : validate_description x = Except.error e) :
    e.path = "description" ∧ e.msg ≠ "" ∧ e.valueSummary ≠ "" := by
  rcases x with _ | w
  · simp [validate_description] at h
  · rcases w with s | b | n | t | _
    case str =>
      simp only [validate_description] at h
      split at h
      · injection h with h
        subst h
        exact ⟨rfl, by decide, by decide⟩
      · simp at h
    case none => simp [validate_description] at h
    all_goals
      injection h with h
      subst h
      exact ⟨rfl, by simp, by simp [Value.typeSummary]⟩

/-- An error produced by the is_active check of the base shape points at
the is_active field with a nonempty message and value summary. -/
lemma validate_is_active_error_shape (x : Option Value) (e : FieldError)
    (h : validate_is_active x = Except.error e) :
    e.path = "is_active" ∧ e.msg ≠ "" ∧ e.valueSummary ≠ "" := by
  rcases x with _ | w
  · simp [validate_is_active] at h
  · simp only [validate_is_active] at h
    rcases hb : coerceBool w with _ | b
    · rw [hb] at h
      injection h with h
      subst h
      exact ⟨rfl, by simp, by simp [typeSummary_ne_empty]⟩
    · rw [hb] at h
      simp at h

/-- An error produced by the update name check points at the name field
with a nonempty message and value summary. -/
lemma validate_update_name_error_shape (x : Option Value) (e : FieldError)
    (h : validate_update_name x = Except.error e) :
    e.path = "name" ∧ e.msg ≠ "" ∧ e.valueSummary ≠ "" := by
  rcases x with _ | w
  · simp [validate_update_name] at h
  · rcases w with s | b | n | t | _
    case str =>
      simp only [validate_update_name] at h
      split at h
      · injection h with h
        subst h
        exact ⟨rfl, by decide, by decide⟩
      · split at h
        · injection h with h
          subst h
          exact ⟨rfl, by decide, by decide⟩
        · simp at h
    case none => simp [validate_update_name] at h
    all_goals
      injection h with h
      subst h
      exact ⟨rfl, by simp, by simp [Value.typeSummary]⟩

/-- An error produced by the update is_active check points at the
is_active field with a nonempty message and value summary. -/
lemma validate_update_is_active_error_shape (x : Option Value) (e : FieldError)
    (h : validate_update_is_active x = Except.error e) :
    e.path = "is_active" ∧ e.msg ≠ "" ∧ e.valueSummary ≠ "" := by
  rcases x with _ | w
  · simp [validate_update_is_active] at h
  · rcases w with s | b | n | t | _
    case none => simp [validate_update_is_active] at h
    all_goals
      simp only [validate_update_is_active] at h
      rcases hb : coerceBool _ with _ | b
      · rw [hb] at h
        injection h with h
        subst h
        exact ⟨rfl, by simp, by simp [Value.typeSummary]⟩
      · rw [hb] at h
        simp at h

/-- An error produced by the id check points at the id field with a
nonempty message and value summary. -/
lemma validate_id_error_shape (x : Option Value) (e : FieldError)
    (h : validate_id x = Except.error e) :
    e.path = "id" ∧ e.msg ≠ "" ∧ e.valueSummary ≠ "" := by
  rcases x with _ | w
  · injection h with h
    subst h
    exact ⟨rfl, by decide, by decide⟩
  · simp only [validate_id] at h
    rcases hb : coerceInt w with _ | n
    · rw [hb] at h
      injection h with h
      subst h
      exact ⟨rfl, by simp, by simp [typeSummary_ne_empty]⟩
    · rw [hb] at h
      simp at h

/-- An error produced by a required timestamp check points at the given
field with a nonempty message and value summary. -/
lemma validate_timestamp_error_shape (p : String) (x : Option Value) (e : FieldError)
    (h : validate_timestamp p x = Except.error e) :
    e.path = p ∧ e.msg ≠ "" ∧ e.valueSummary ≠ "" := by
  rcases x with _ | w
  · injection h with h
    subst h
    exact ⟨rfl, by simp, by simp [missingSummary]⟩
  · simp only [validate_timestamp] at h
    rcases hb : coerceDatetime w with _ | t
    · rw [hb] at h
      injection h with h
      subst h
      exact ⟨rfl, by simp, by simp [typeSummary_ne_empty]⟩
    · rw [hb] at h
      simp at h

/-- A successful name check means the input was a string within the
length bounds, and that string revalidates to itself. -/
lemma validate_name_ok (x : Option Value) (s : String)
    (h : validate_name x = Except.ok s) :
    1 ≤ s.length ∧ s.length ≤ 100 ∧
      validate_name (some (Value.str s)) = Except.ok s := by
  rcases x with _ | w
  · simp [validate_name] at h
  · rcases w with u | b | n | tt | _
    case str =>
      by_cases h1 : u.length < 1
      · simp [validate_name, h1] at h
      · by_cases h2 : 100 < u.length
        · simp [validate_name, h1, h2] at h
        · simp [validate_name, h1, h2] at h
          subst h
          exact ⟨by omega, by omega, by simp [validate_name, h1, h2]⟩
    all_goals simp [validate_name] at h

/-- A successful description check yields a value whose serialized form
revalidates to itself. -/
lemma validate_description_ok (x : Option Value) (d : Option String)
    (h : validate_description x = Except.ok d) :
    validate_description (some (optStrToValue d)) = Except.ok d := by
  rcases x with _ | w
  · injection h with h
    subst h
    rfl
  · rcases w with u | b | n | tt | _
    case str =>
      by_cases h1 : 500 < u.length
      · simp [validate_description, h1] at h
      · simp [validate_description, h1] at h
        subst h
        simp [validate_description, optStrToValue, h1]
    case none =>
      injection h with h
      subst h
      rfl
    all_goals simp [validate_description] at h

/-- A failed Create parse returns exactly the collected per-field
errors, and the list is nonempty. -/
lemma parse_create_error_eq (m : List (String × Value)) (es : List FieldError)
    (h : parse_create m = Except.error es) :
    es ≠ [] ∧
      es = collect (validate_name (m.lookup "name")) ++
        collect (validate_description (m.lookup "description")) ++
        collect (validate_is_active (m.lookup "is_active")) := by
  simp only [parse_create] at h
  rcases hn : validate_name (m.lookup "name") with en | n <;>
    rcases hd : validate_description (m.lookup "description") with ed | d <;>
      rcases ha : validate_is_active (m.lookup "is_active") with ea | a <;>
        simp_all [collect] <;>
          simp [← h, collect]

/-- A successful Create parse means every field check succeeded. -/
lemma parse_create_ok_fields (m : List (String × Value)) (v : ExampleCreate)
    (h : parse_create m = Except.ok v) :
    validate_name (m.lookup "name") = Except.ok v.name ∧
      validate_description (m.lookup "description") = Except.ok v.description ∧
      validate_is_active (m.lookup "is_active") = Except.ok v.is_active := by
  simp only [parse_create] at h
  rcases hn : validate_name (m.lookup "name") with en | n <;>
    rcases hd : validate_description (m.lookup "description") with ed | d <;>
      rcases ha : validate_is_active (m.lookup "is_active") with ea | a <;>
        (simp_all; try simp [← h])

/-- The collected errors of one field check: the paths are the field
name exactly when the check failed, and every entry has a nonempty
message and value summary. -/
lemma collect_props {α : Type} (p0 : String) (r : Except FieldError α)
    (hsh : ∀ e, r = Except.error e → e.path = p0 ∧ e.msg ≠ "" ∧ e.valueSummary ≠ "") :
    (collect r).map FieldError.path = (if isOk r then [] else [p0]) ∧
      ∀ e ∈ collect r, e.msg ≠ "" ∧ e.valueSummary ≠ "" := by
  cases r with
  | error e =>
      obtain ⟨h1, h2, h3⟩ := hsh e rfl
      simp [collect, isOk, h1, h2, h3]
  | ok a => simp [collect, isOk]

/-- The paths of the extra-key error entries are exactly the unknown
input keys, in input order. -/
lemma update_extras_map_path (m : List (String × Value)) :
    (update_extras m).map FieldError.path =
      (m.filter (fun p => p.1 ∉ updateFields)).map Prod.fst := by
  simp [update_extras, List.map_map]

/-- Every extra-key error entry has a nonempty message and value
summary. -/
lemma update_extras_mem_shape (m : List (String × Value)) (e : FieldError)
    (h : e ∈ update_extras m) : e.msg ≠ "" ∧ e.valueSummary ≠ "" := by
  simp only [update_extras, List.mem_map] at h
  obtain ⟨p, hp, he⟩ := h
  subst he
  exact ⟨by simp, typeSummary_ne_empty _⟩

/-- A failed Update parse returns exactly the collected per-field errors
followed by the extra-key errors, and the list is nonempty. -/
lemma parse_update_error_eq (m : List (String × Value)) (es : List FieldError)
    (h : parse_update m = Except.error es) :
    es ≠ [] ∧
      es = collect (validate_update_name (m.lookup "name")) ++
        collect (validate_description (m.lookup "description")) ++
        collect (validate_update_is_active (m.lookup "is_active")) ++
        update_extras m := by
  simp only [parse_update] at h
  rcases hx : update_extras m with _ | ⟨x, xs⟩ <;>
    rcases hn : validate_update_name (m.lookup "name") with en | n <;>
      rcases hd : validate_description (m.lookup "description") with ed | d <;>
        rcases ha : validate_update_is_active (m.lookup "is_active") with ea | a <;>
          (simp_all [collect]; try simp [← h, collect])

/-- A successful Update parse means no extra keys were present and every
field check succeeded. -/
lemma parse_update_ok_fields (m : List (String × Value)) (u : ExampleUpdate)
    (h : parse_update m = Except.ok u) :
    update_extras m = [] ∧
      validate_update_name (m.lookup "name") = Except.ok u.name ∧
      validate_description (m.lookup "description") = Except.ok u.description ∧
      validate_update_is_active (m.lookup "is_active") = Except.ok u.is_active := by
  simp only [parse_update] at h
  rcases hx : update_extras m with _ | ⟨x, xs⟩ <;>
    rcases hn : validate_update_name (m.lookup "name") with en | n <;>
      rcases hd : validate_description (m.lookup "description") with ed | d <;>
        rcases ha : validate_update_is_active (m.lookup "is_active") with ea | a <;>
          (simp_all; try simp [← h])

/-- If an entry belongs to the collected field errors of a Read
validation, the validation fails with an error list containing it. -/
lemma parse_read_core_error_mem (get : String → Option Value) (e : FieldError)
    (h : e ∈ collect (validate_name (get "name")) ++
      collect (validate_description (get "description")) ++
      collect (validate_is_active (get "is_active")) ++
      collect (validate_id (get "id")) ++
      collect (validate_timestamp "created_at" (get "created_at")) ++
      collect (validate_timestamp "updated_at" (get "updated_at"))) :
    ∃ es, parse_read_core get = Except.error es ∧ e ∈ es := by
  simp only [parse_read_core]
  rcases hn : validate_name (get "name") with en | n <;>
    rcases hd : validate_description (get "description") with ed | d <;>
      rcases ha : validate_is_active (get "is_active") with ea | a <;>
        rcases hi : validate_id (get "id") with ei | i <;>
          rcases hc : validate_timestamp "created_at" (get "created_at") with ec | c <;>
            rcases hu : validate_timestamp "updated_at" (get "updated_at") with eu | u <;>
              simp_all [collect]

/-- The invalid-field list of a Create input never repeats a field. -/
lemma create_invalid_fields_nodup (m : List (String × Value)) :
    (create_invalid_fields m).Nodup := by
  unfold create_invalid_fields
  split <;> split <;> split <;> decide

/-- Appending declared-field entries and unknown-key entries keeps the
paths distinct when the two groups are disjoint and each is distinct. -/
lemma nodup_append_of_split (L K : List String) (hL : L.Nodup)
    (hLsub : ∀ a ∈ L, a ∈ updateFields) (hK : K.Nodup)
    (hKnot : ∀ a ∈ K, a ∉ updateFields) : (L ++ K).Nodup :=
  List.Nodup.append hL hK (fun a haL haK => hKnot a haK (hLsub a haL))

/-- The invalid-field list of an Update input never repeats a field when
the input keys are distinct. -/
lemma update_invalid_fields_nodup (m : List (String × Value))
    (hm : (m.map Prod.fst).Nodup) : (update_invalid_fields m).Nodup := by
  unfold update_invalid_fields
  apply nodup_append_of_split
  · split <;> split <;> split <;> decide
  · split <;> split <;> split <;> decide
  · exact hm.sublist (List.Sublist.map Prod.fst (List.filter_sublist m))
  · intro a ha
    simp only [List.mem_map, List.mem_filter] at ha
    obtain ⟨p, ⟨hpm, hpf⟩, he⟩ := ha
    subst he
    simpa using hpf

/-- If an entry belongs to the collected field errors of a Create parse,
the parse fails with an error list containing it. -/
lemma parse_create_error_mem (m : List (String × Value)) (e : FieldError)
    (h : e ∈ collect (validate_name (m.lookup "name")) ++
      collect (validate_description (m.lookup "description")) ++
      collect (validate_is_active (m.lookup "is_active"))) :
    ∃ es, parse_create m = Except.error es ∧ e ∈ es := by
  simp only [parse_create]
  rcases hn : validate_name (m.lookup "name") with en | n <;>
    rcases hd : validate_description (m.lookup "description") with ed | d <;>
      rcases ha : validate_is_active (m.lookup "is_active") with ea | a <;>
        simp_all [collect]

/-- An unknown-key error entry forces an Update parse to fail with an
error list containing it. -/
lemma parse_update_extras_mem (m : List (String × Value)) (e : FieldError)
    (he : e ∈ update_extras m) :
    ∃ es, parse_update m = Except.error es ∧ e ∈ es := by
  simp only [parse_update]
  rcases hx : update_extras m with _ | ⟨x, xs⟩
  · simp [hx] at he
  · rcases hn : validate_update_name (m.lookup "name") with en | n <;>
      rcases hd : validate_description (m.lookup "description") with ed | d <;>
        rcases ha : validate_update_is_active (m.lookup "is_active") with ea | a <;>
          simp_all [collect]

/-- C3: for every string s with 1 <= len(s) <= 100, parse_create on the
mapping holding only name = s succeeds, and the resulting value has
name s, description None and is_active true. -/
theorem parse_create_name_only (s : String) (h1 : 1 ≤ s.length)
    (h2 : s.length ≤ 100) :
    parse_create [("name", Value.str s)] =
      Except.ok ⟨s, Option.none, true⟩ := by
  have hn1 : ¬ (s.length < 1) := by omega
  have hn2 : ¬ (100 < s.length) := by omega
  have hl1 : ([("name", Value.str s)] : List (String × Value)).lookup "name" =
    some (Value.str s) := rfl
  have hl2 : ([("name", Value.str s)] : List (String × Value)).lookup "description" =
    Option.none := rfl
  have hl3 : ([("name", Value.str s)] : List (String × Value)).lookup "is_active" =
    Option.none := rfl
  simp [parse_create, hl1, hl2, hl3, validate_name, validate_description,
    validate_is_active, hn1, hn2]

/-- Witness for C3 at the concrete name Test. -/
theorem parse_create_name_only_witness :
    parse_create [("name", Value.str "Test")] =
      Except.ok ⟨"Test", Option.none, true⟩ :=
  parse_create_name_only "Test" (by decide) (by decide)

/-- C7 counterexample: the Update value built from an empty input and
the one built from an explicit null name are equal as value objects
(model equality compares field values and ignores model_fields_set), so
the result of an absent field is not distinguishable from the result of
an explicit null. -/
theorem update_absent_null_equal_counterexample :
    parse_update [] = Except.ok ⟨Option.none, Option.none, Option.none, []⟩ ∧
    parse_update [("name", Value.none)] =
      Except.ok ⟨Option.none, Option.none, Option.none, ["name"]⟩ ∧
    ExampleUpdate.model_eq ⟨Option.none, Option.none, Option.none, []⟩
      ⟨Option.none, Option.none, Option.none, ["name"]⟩ = true :=
  ⟨rfl, rfl, rfl⟩

/-- C7 amended: constructing the Update shape with a field absent and
with that field explicitly null yields the same field values (both mean
"do not change"); the two constructions differ only in the recorded
model_fields_set metadata, which model equality ignores. -/
theorem update_absent_vs_null_fieldsSet :
    parse_update [] = Except.ok ⟨Option.none, Option.none, Option.none, []⟩ ∧
    parse_update [("name", Value.none)] =
      Except.ok ⟨Option.none, Option.none, Option.none, ["name"]⟩ ∧
    ExampleUpdate.model_eq ⟨Option.none, Option.none, Option.none, []⟩
      ⟨Option.none, Option.none, Option.none, ["name"]⟩ = true ∧
    (ExampleUpdate.mk Option.none Option.none Option.none []).fieldsSet ≠
      (ExampleUpdate.mk Option.none Option.none Option.none ["name"]).fieldsSet :=
  ⟨rfl, rfl, rfl, by simp⟩

/-- C8: constructing the Read shape from a record-like object exposing
the six attributes gives the same result as constructing it from the
corresponding mapping: validation is representation agnostic. -/
theorem parse_read_attrs_eq_mapping (o : AttrObj) :
    parse_read_attrs o = parse_read o.toMapping := rfl

/-- C9: round-trip idempotence for the Create shape: a successfully
parsed value, serialized with model_dump and parsed again, yields an
equal value. -/
theorem parse_create_roundtrip (m : List (String × Value)) (v : ExampleCreate)
    (h : parse_create m = Except.ok v) :
    parse_create v.model_dump = Except.ok v := by
  obtain ⟨hn, hd, ha⟩ := parse_create_ok_fields m v h
  obtain ⟨_, _, hn2⟩ := validate_name_ok _ _ hn
  have hd2 := validate_description_ok _ _ hd
  have hl1 : (v.model_dump).lookup "name" = some (Value.str v.name) := rfl
  have hl2 : (v.model_dump).lookup "description" =
    some (optStrToValue v.description) := rfl
  have hl3 : (v.model_dump).lookup "is_active" =
    some (Value.bool v.is_active) := rfl
  simp [parse_create, hl1, hl2, hl3, hn2, hd2, validate_is_active, coerceBool]

/-- Witness for C9 at a concrete valid Create input. -/
theorem parse_create_roundtrip_witness :
    parse_create (ExampleCreate.model_dump ⟨"Test", Option.none, true⟩) =
      Except.ok ⟨"Test", Option.none, true⟩ :=
  parse_create_roundtrip [("name", Value.str "Test")] ⟨"Test", Option.none, true⟩ rfl

/-- C10: parse_update accepts an explicit null for name and for
is_active even though name carries length constraints: the constraints
apply only to string values, an explicit null parses successfully and
yields the same field values as omitting the field, while an empty
string name still fails. -/
theorem update_accepts_null_name_and_is_active :
    parse_update [("name", Value.none)] =
      Except.ok ⟨Option.none, Option.none, Option.none, ["name"]⟩ ∧
    parse_update [("is_active", Value.none)] =
      Except.ok ⟨Option.none, Option.none, Option.none, ["is_active"]⟩ ∧
    parse_update [] = Except.ok ⟨Option.none, Option.none, Option.none, []⟩ ∧
    ExampleUpdate.model_eq ⟨Option.none, Option.none, Option.none, ["name"]⟩
      ⟨Option.none, Option.none, Option.none, []⟩ = true ∧
    ExampleUpdate.model_eq ⟨Option.none, Option.none, Option.none, ["is_active"]⟩
      ⟨Option.none, Option.none, Option.none, []⟩ = true ∧
    parse_update [("name", Value.str "")] =
      Except.error [⟨"name", "String should have at least 1 character", "str"⟩] :=
  ⟨rfl, rfl, rfl, rfl, rfl, rfl⟩

/-- C1 counterexample: parse_read succeeds on an input where description
and is_active are absent (they default to None and true), so it does not
require all six fields to be present. -/
theorem parse_read_not_all_six_required_counterexample :
    parse_read [("name", Value.str "Test"), ("id", Value.int 1),
      ("created_at", Value.datetime 0), ("updated_at", Value.datetime 0)] =
      Except.ok ⟨"Test", Option.none, true, 1, 0, 0⟩ := rfl

/-- C1 amended: parse_read requires the four fields name, id, created_at
and updated_at: a missing one is reported as required; for the input
holding only name = Test the error cites id, created_at and updated_at;
and the four fields alone suffice, description defaulting to None and
is_active to true. -/
theorem parse_read_required_fields
    (m : List (String × Value)) (f : String)
    (hf : f ∈ (["name", "id", "created_at", "updated_at"] : List String))
    (hmiss : m.lookup f = Option.none) :
    (∃ es, parse_read m = Except.error es ∧
      FieldError.mk f "Field required" missingSummary ∈ es) ∧
    parse_read [("name", Value.str "Test")] =
      Except.error [⟨"id", "Field required", missingSummary⟩,
        ⟨"created_at", "Field required", missingSummary⟩,
        ⟨"updated_at", "Field required", missingSummary⟩] ∧
    ∀ (s : String) (i c u : Int), 1 ≤ s.length → s.length ≤ 100 →
      parse_read [("name", Value.str s), ("id", Value.int i),
        ("created_at", Value.datetime c), ("updated_at", Value.datetime u)] =
        Except.ok ⟨s, Option.none, true, i, c, u⟩ := by
  refine ⟨?_, rfl, ?_⟩
  · fin_cases hf
    · exact parse_read_core_error_mem _ _ (by simp [hmiss, validate_name, collect])
    · exact parse_read_core_error_mem _ _ (by simp [hmiss, validate_id, collect])
    · exact parse_read_core_error_mem _ _ (by simp [hmiss, validate_timestamp, collect])
    · exact parse_read_core_error_mem _ _ (by simp [hmiss, validate_timestamp, collect])
  · intro s i c u h1 h2
    have hn1 : ¬ (s.length < 1) := by omega
    have hn2 : ¬ (100 < s.length) := by omega
    have hl1 : ([("name", Value.str s), ("id", Value.int i),
      ("created_at", Value.datetime c), ("updated_at", Value.datetime u)] :
        List (String × Value)).lookup "name" = some (Value.str s) := rfl
    have hl2 : ([("name", Value.str s), ("id", Value.int i),
      ("created_at", Value.datetime c), ("updated_at", Value.datetime u)] :
        List (String × Value)).lookup "description" = Option.none := rfl
    have hl3 : ([("name", Value.str s), ("id", Value.int i),
      ("created_at", Value.datetime c), ("updated_at", Value.datetime u)] :
        List (String × Value)).lookup "is_active" = Option.none := rfl
    have hl4 : ([("name", Value.str s), ("id", Value.int i),
      ("created_at", Value.datetime c), ("updated_at", Value.datetime u)] :
        List (String × Value)).lookup "id" = some (Value.int i) := rfl
    have hl5 : ([("name", Value.str s), ("id", Value.int i),
      ("created_at", Value.datetime c), ("updated_at", Value.datetime u)] :
        List (String × Value)).lookup "created_at" = some (Value.datetime c) := rfl
    have hl6 : ([("name", Value.str s), ("id", Value.int i),
      ("created_at", Value.datetime c), ("updated_at", Value.datetime u)] :
        List (String × Value)).lookup "updated_at" = some (Value.datetime u) := rfl
    simp [parse_read, parse_read_core, hl1, hl2, hl3, hl4, hl5, hl6,
      validate_name, validate_description, validate_is_active, validate_id,
      validate_timestamp, coerceInt, coerceDatetime, hn1, hn2]

/-- Witness for C1 amended: the empty input is missing id and parse_read
reports it as required. -/
theorem parse_read_required_fields_witness :
    (∃ es, parse_read [] = Except.error es ∧
      FieldError.mk "id" "Field required" missingSummary ∈ es) ∧
    parse_read [("name", Value.str "Test")] =
      Except.error [⟨"id", "Field required", missingSummary⟩,
        ⟨"created_at", "Field required", missingSummary⟩,
        ⟨"updated_at", "Field required", missingSummary⟩] ∧
    ∀ (s : String) (i c u : Int), 1 ≤ s.length → s.length ≤ 100 →
      parse_read [("name", Value.str s), ("id", Value.int i),
        ("created_at", Value.datetime c), ("updated_at", Value.datetime u)] =
        Except.ok ⟨s, Option.none, true, i, c, u⟩ :=
  parse_read_required_fields [] "id" (by simp) rfl

/-- C2 counterexample: parse_read does reject on account of name length:
a Read input with an empty name fails with the min-length message,
because ExampleRead inherits the ExampleBase length constraints. -/
theorem parse_read_rejects_length_counterexample :
    parse_read [("id", Value.int 1), ("name", Value.str ""),
      ("created_at", Value.datetime 0), ("updated_at", Value.datetime 0)] =
      Except.error [⟨"name", "String should have at least 1 character", "str"⟩] := rfl

/-- C2 amended: constructing the Read shape re-validates the inherited
length constraints: parse_read rejects a name of length 0 or above 100
and a description above 500 characters, with the corresponding length
message. -/
theorem parse_read_revalidates_lengths :
    (∀ (m : List (String × Value)) (s : String),
      m.lookup "name" = some (Value.str s) → s.length = 0 →
      ∃ es, parse_read m = Except.error es ∧
        FieldError.mk "name" "String should have at least 1 character" "str" ∈ es) ∧
    (∀ (m : List (String × Value)) (s : String),
      m.lookup "name" = some (Value.str s) → 100 < s.length →
      ∃ es, parse_read m = Except.error es ∧
        FieldError.mk "name" "String should have at most 100 characters" "str" ∈ es) ∧
    (∀ (m : List (String × Value)) (s : String),
      m.lookup "description" = some (Value.str s) → 500 < s.length →
      ∃ es, parse_read m = Except.error es ∧
        FieldError.mk "description" "String should have at most 500 characters" "str" ∈ es) := by
  refine ⟨?_, ?_, ?_⟩
  · intro m s hm hlen
    exact parse_read_core_error_mem _ _
      (by simp [hm, validate_name, collect, hlen])
  · intro m s hm hlen
    have hn1 : ¬ (s.length < 1) := by omega
    exact parse_read_core_error_mem _ _
      (by simp [hm, validate_name, collect, hn1, hlen])
  · intro m s hm hlen
    exact parse_read_core_error_mem _ _
      (by simp [hm, validate_description, collect, hlen])

/-- Witness for C2 amended at a concrete empty-name input. -/
theorem parse_read_revalidates_lengths_witness :
    ∃ es, parse_read [("id", Value.int 1), ("name", Value.str ""),
      ("created_at", Value.datetime 0), ("updated_at", Value.datetime 0)] =
        Except.error es ∧
      FieldError.mk "name" "String should have at least 1 character" "str" ∈ es :=
  parse_read_revalidates_lengths.1 [("id", Value.int 1), ("name", Value.str ""),
    ("created_at", Value.datetime 0), ("updated_at", Value.datetime 0)] "" rfl rfl

/-- C4: parse_update fails on any input containing a key outside the
declared field set, citing the unknown key as not permitted, while
parse_create does not forbid extra keys: with extra_field present it
still succeeds. -/
theorem update_forbids_extras_create_ignores
    (m : List (String × Value)) (k : String) (v : Value)
    (hmem : (k, v) ∈ m) (hk : k ∉ updateFields) :
    (∃ es, parse_update m = Except.error es ∧
      FieldError.mk k "Extra inputs are not permitted" v.typeSummary ∈ es) ∧
    parse_create [("name", Value.str "Test"), ("extra_field", Value.str "value")] =
      Except.ok ⟨"Test", Option.none, true⟩ := by
  refine ⟨?_, rfl⟩
  apply parse_update_extras_mem
  simp only [update_extras, List.mem_map]
  refine ⟨(k, v), ?_, rfl⟩
  simp [List.mem_filter, hmem, hk]

/-- Witness for C4 at the concrete input carrying extra_field. -/
theorem update_forbids_extras_create_ignores_witness :
    (∃ es, parse_update [("name", Value.str "Test"),
        ("extra_field", Value.str "value")] = Except.error es ∧
      FieldError.mk "extra_field" "Extra inputs are not permitted"
        (Value.str "value").typeSummary ∈ es) ∧
    parse_create [("name", Value.str "Test"), ("extra_field", Value.str "value")] =
      Except.ok ⟨"Test", Option.none, true⟩ :=
  update_forbids_extras_create_ignores
    [("name", Value.str "Test"), ("extra_field", Value.str "value")]
    "extra_field" (Value.str "value") (by simp) (by decide)

set_option maxRecDepth 100000 in
/-- C5: parse_create fails exactly on length/requiredness violations: an
absent name is reported as required; an empty name, a 101-character name
and a 501-character description fail with their length messages; a
500-character description succeeds; and on string-valued inputs success
holds exactly when the length bounds are met. -/
theorem parse_create_length_requiredness :
    (∀ m : List (String × Value), m.lookup "name" = Option.none →
      ∃ es, parse_create m = Except.error es ∧
        FieldError.mk "name" "Field required" missingSummary ∈ es) ∧
    parse_create [("name", Value.str "")] =
      Except.error [⟨"name", "String should have at least 1 character", "str"⟩] ∧
    parse_create [("name", Value.str (strA 101))] =
      Except.error [⟨"name", "String should have at most 100 characters", "str"⟩] ∧
    parse_create [("name", Value.str "Test"), ("description", Value.str (strA 501))] =
      Except.error [⟨"description", "String should have at most 500 characters", "str"⟩] ∧
    parse_create [("name", Value.str "Test"), ("description", Value.str (strA 500))] =
      Except.ok ⟨"Test", some (strA 500), true⟩ ∧
    ∀ (s d : String),
      parse_create [("name", Value.str s), ("description", Value.str d)] =
          Except.ok ⟨s, some d, true⟩ ↔
        (1 ≤ s.length ∧ s.length ≤ 100 ∧ d.length ≤ 500) := by
  refine ⟨?_, rfl, rfl, rfl, rfl, ?_⟩
  · intro m hm
    exact parse_create_error_mem _ _ (by simp [hm, validate_name, collect])
  · intro s d
    have hl1 : ([("name", Value.str s), ("description", Value.str d)] :
      List (String × Value)).lookup "name" = some (Value.str s) := rfl
    have hl2 : ([("name", Value.str s), ("description", Value.str d)] :
      List (String × Value)).lookup "description" = some (Value.str d) := rfl
    have hl3 : ([("name", Value.str s), ("description", Value.str d)] :
      List (String × Value)).lookup "is_active" = Option.none := rfl
    by_cases h1 : s.length < 1
    · simp [parse_create, hl1, hl2, hl3, validate_name, validate_description,
        validate_is_active, h1]
    · by_cases h2 : 100 < s.length
      · simp [parse_create, hl1, hl2, hl3, validate_name, validate_description,
          validate_is_active, h1, h2]
      · by_cases h3 : 500 < d.length
        · simp [parse_create, hl1, hl2, hl3, validate_name, validate_description,
            validate_is_active, h1, h2, h3]
        · simp [parse_create, hl1, hl2, hl3, validate_name, validate_description,
            validate_is_active, h1, h2, h3]
          omega

/-- Witness for C5: the empty input is missing name and parse_create
reports it as required. -/
theorem parse_create_length_requiredness_witness :
    ∃ es, parse_create [] = Except.error es ∧
      FieldError.mk "name" "Field required" missingSummary ∈ es :=
  parse_create_length_requiredness.1 [] rfl

/-- C6: a failed parse raises a single error aggregating exactly one
entry per invalid field (all violations, not only the first), each entry
carrying the field path, a nonempty message and a nonempty
offending-value summary; no value object is produced while any field is
invalid. -/
theorem failed_parse_error_granularity :
    (∀ (m : List (String × Value)) (es : List FieldError),
      parse_create m = Except.error es →
        es ≠ [] ∧ es.map FieldError.path = create_invalid_fields m ∧
        (es.map FieldError.path).Nodup ∧
        ∀ e ∈ es, e.msg ≠ "" ∧ e.valueSummary ≠ "") ∧
    (∀ (m : List (String × Value)) (v : ExampleCreate),
      parse_create m = Except.ok v → create_invalid_fields m = []) ∧
    (∀ (m : List (String × Value)) (es : List FieldError),
      parse_update m = Except.error es →
        es ≠ [] ∧ es.map FieldError.path = update_invalid_fields m ∧
        ((m.map Prod.fst).Nodup → (es.map FieldError.path).Nodup) ∧
        ∀ e ∈ es, e.msg ≠ "" ∧ e.valueSummary ≠ "") ∧
    (∀ (m : List (String × Value)) (u : ExampleUpdate),
      parse_update m = Except.ok u → update_invalid_fields m = []) := by
  refine ⟨?_, ?_, ?_, ?_⟩
  · intro m es h
    obtain ⟨hne, hes⟩ := parse_create_error_eq m es h
    obtain ⟨hp1, hm1⟩ := collect_props "name" _
      (validate_name_error_shape (m.lookup "name"))
    obtain ⟨hp2, hm2⟩ := collect_props "description" _
      (validate_description_error_shape (m.lookup "description"))
    obtain ⟨hp3, hm3⟩ := collect_props "is_active" _
      (validate_is_active_error_shape (m.lookup "is_active"))
    have hmap : es.map FieldError.path = create_invalid_fields m := by
      simp [hes, create_invalid_fields, hp1, hp2, hp3]
    refine ⟨hne, hmap, hmap ▸ create_invalid_fields_nodup m, ?_⟩
    intro e he
    rw [hes] at he
    simp only [List.mem_append] at he
    rcases he with (he | he) | he
    · exact hm1 e he
    · exact hm2 e he
    · exact hm3 e he
  · intro m v h
    obtain ⟨h1, h2, h3⟩ := parse_create_ok_fields m v h
    simp [create_invalid_fields, isOk, h1, h2, h3]
  · intro m es h
    obtain ⟨hne, hes⟩ := parse_update_error_eq m es h
    obtain ⟨hp1, hm1⟩ := collect_props "name" _
      (validate_update_name_error_shape (m.lookup "name"))
    obtain ⟨hp2, hm2⟩ := collect_props "description" _
      (validate_description_error_shape (m.lookup "description"))
    obtain ⟨hp3, hm3⟩ := collect_props "is_active" _
      (validate_update_is_active_error_shape (m.lookup "is_active"))
    have hmap : es.map FieldError.path = update_invalid_fields m := by
      simp [hes, update_invalid_fields, hp1, hp2, hp3, update_extras_map_path]
    refine ⟨hne, hmap, fun hkeys => hmap ▸ update_invalid_fields_nodup m hkeys, ?_⟩
    intro e he
    rw [hes] at he
    simp only [List.mem_append] at he
    rcases he with ((he | he) | he) | he
    · exact hm1 e he
    · exact hm2 e he
    · exact hm3 e he
    · exact update_extras_mem_shape m e he
  · intro m u h
    obtain ⟨hx, h1, h2, h3⟩ := parse_update_ok_fields m u h
    have hf : m.filter (fun p => p.1 ∉ updateFields) = [] := by
      simpa [update_extras] using hx
    simp only [List.filter_eq_nil_iff] at hf
    simp [update_invalid_fields, isOk, h1, h2, h3]
    intro a b hab
    simpa using hf (a, b) hab

/-- Witness for C6: the empty Create input fails on name only, with the
required-field message. -/
theorem failed_parse_error_granularity_witness :
    ([(⟨"name", "Field required", missingSummary⟩ : FieldError)] ≠ [] ∧
      ([(⟨"name", "Field required", missingSummary⟩ : FieldError)]).map
        FieldError.path = create_invalid_fields [] ∧
      (([(⟨"name", "Field required", missingSummary⟩ : FieldError)]).map
        FieldError.path).Nodup ∧
      ∀ e ∈ [(⟨"name", "Field required", missingSummary⟩ : FieldError)],
        e.msg ≠ "" ∧ e.valueSummary ≠ "") :=
  failed_parse_error_granularity.1 [] [⟨"name", "Field required", missingSummary⟩] rfl
